import Mathlib

/-!
Verification of the `devtool-mcp` compatibility shim
(src/python/src/devtool_mcp/__init__.py).

The module is a deprecation shim: at import time it calls
`warnings.warn(...)` with a `DeprecationWarning`, then executes
`from agnt import __version__, get_binary_path, run`, and sets
`__all__ = ["main", "get_binary_path", "run"]`.  Its `main` function
prints a notice to `sys.stderr` and then executes
`from agnt import main as agnt_main; agnt_main()`.  A trailing
`if __name__ == "__main__": main()` guard runs `main` when the module
is executed as a script.

The embedding below models observable behaviour as a trace of effects
paired with an `Except` outcome.  The successor package `agnt` is
external to the repository, so it is represented abstractly: a record
of three opaque re-exported values and the outcome of its entry point.

A modelling note on the message texts: in Python, adjacent string
literals concatenate at parse time, and that concatenation binds
tighter than `*` and `+`.  The source builds its two banner texts as
expressions of the shape
  `"\n" "=" * 60 + "\n" "HEADER...\n" "=" * 60 + "\n" "\n" "body..."`,
which therefore evaluate to
  `("\n=") * 60 + ("\nHEADER...\n=") * 60 + ("\n\nbody...")`
(and, for the notice printed by `main`, the final body group also ends
with `"="` and is itself repeated 60 times, followed by `+ "\n"`).
The definitions below reproduce exactly that grouping, literal by
literal in source order.
-/

namespace DevtoolMcp

/-- Python string repetition: `pyRepeat s n` is `s * n`. -/
def pyRepeat (s : String) : Nat → String
  | 0 => ""
  | n + 1 => s ++ pyRepeat s n

/-- The implicitly concatenated group `"\n" "="` that both banners repeat 60
times (the author intended `"\n" + "=" * 60`, but precedence groups it this
way). -/
def bannerGroup : String := "\n" ++ "="

/-- The implicitly concatenated group ending in `"="` that the warning text
repeats 60 times. -/
def warningHeader : String :=
  "\n" ++ "DEPRECATION WARNING: devtool-mcp has been renamed to \x27agnt\x27\n" ++ "="

/-- The trailing literal group of the warning message, literal by literal in
source order. -/
def warningBody : String :=
  "\n" ++ "\n" ++ "This package will continue to work but will not receive updates.\n" ++
  "Please migrate to the new package:\n" ++ "\n" ++
  "    pip uninstall devtool-mcp\n" ++ "    pip install agnt\n" ++ "\n" ++
  "Then update your MCP configuration to use \x27agnt\x27 command.\n" ++
  "See: https://standardbeagle.github.io/agnt/\n"

/-- The full message passed to `warnings.warn` at module load. -/
def warningMessage : String :=
  pyRepeat bannerGroup 60 ++ pyRepeat warningHeader 60 ++ warningBody

/-- The implicitly concatenated group ending in `"="` that the notice printed
by `main` repeats 60 times. -/
def noticeHeader : String :=
  "\n" ++ "DEPRECATION NOTICE: devtool-mcp has been renamed to \x27agnt\x27\n" ++ "="

/-- The body group of the notice printed by `main`; because the closing
banner line also ends in an adjacent `"="` literal, this whole group is
repeated 60 times in the source expression. -/
def noticeBody : String :=
  "\n" ++ "\n" ++ "This command will continue to work but will not receive updates.\n" ++
  "Please migrate to the new package:\n" ++ "\n" ++
  "    pip uninstall devtool-mcp\n" ++ "    pip install agnt\n" ++ "\n" ++
  "Then use \x27agnt\x27 command instead:\n" ++
  "    agnt serve     (for MCP server)\n" ++
  "    agnt run ...   (for PTY wrapper)\n" ++ "\n" ++
  "See: https://standardbeagle.github.io/agnt/\n" ++ "="

/-- The argument of the `print(..., file=sys.stderr)` call in `main`. -/
def noticeText : String :=
  pyRepeat bannerGroup 60 ++ pyRepeat noticeHeader 60 ++ pyRepeat noticeBody 60 ++ "\n"

/-- What `print(noticeText, file=sys.stderr)` actually writes: `print`
appends its end-of-line terminator `"\n"`. -/
def printedNotice : String := noticeText ++ "\n"

/-- The warning category passed to `warnings.warn` (second argument,
`DeprecationWarning`). -/
def deprecationCategory : String := "DeprecationWarning"

/-- Observable effects of the shim.  `warn` is a `warnings.warn` call with
its category and message; `stderrWrite` is a write to `sys.stderr`;
`resolveAgnt` is a successful resolution of the successor package by an
`import` statement; `callAgntMain` is the zero-argument call
`agnt_main()` of the successor entry point. -/
inductive Effect where
  | warn (category : String) (message : String)
  | stderrWrite (s : String)
  | resolveAgnt
  | callAgntMain

/-- The single `warnings.warn` effect the module body performs. -/
def warnEffect : Effect := Effect.warn deprecationCategory warningMessage

def Effect.isWarn : Effect → Bool
  | Effect.warn _ _ => true
  | _ => false

def Effect.isStreamWrite : Effect → Bool
  | Effect.stderrWrite _ => true
  | _ => false

/-- Abstract view of the external successor package `agnt`: its three
re-exported values (opaque, of an abstract type `V`) and the outcome of a
call to its entry point `agnt.main` (normal return of `None`, or an
exception of abstract type `ε`). -/
structure AgntPkg (V : Type) (ε : Type) where
  version : V
  get_binary_path : V
  run : V
  mainResult : Except ε Unit

/-- Errors the shim can surface: the `ImportError`/`ModuleNotFoundError`
raised when `agnt` cannot be located, or an exception of the successor
entry point propagated through `main`. -/
inductive ShimError (ε : Type) where
  | importError
  | upstream (e : ε)

/-- The loaded shim module: the three names bound by
`from agnt import __version__, get_binary_path, run` plus the value of
`__all__`. -/
structure ShimModule (V : Type) where
  version : V
  get_binary_path : V
  run : V
  allNames : List String

/-- `__all__ = ["main", "get_binary_path", "run"]` (source line 64). -/
def shimAll : List String := ["main", "get_binary_path", "run"]

/-- Import-time execution of the module body (as on a plain `import`):
first the `warnings.warn` call, then `from agnt import ...`, which either
fails with an import error when `agnt` is absent or binds the three
re-exported names unchanged and sets `__all__`. -/
def importShim {V ε : Type} (agnt : Option (AgntPkg V ε)) :
    List Effect × Except (ShimError ε) (ShimModule V) :=
  match agnt with
  | none => ([warnEffect], Except.error ShimError.importError)
  | some pkg =>
      ([warnEffect, Effect.resolveAgnt],
       Except.ok ⟨pkg.version, pkg.get_binary_path, pkg.run, shimAll⟩)

/-- The body of `main` (source lines 67 to 93): it first prints the notice
to `sys.stderr`, then executes `from agnt import main as agnt_main`, which
raises an import error when `agnt` is absent, and finally calls
`agnt_main()` with no arguments, returning its outcome unchanged (tagged
`upstream` in the shim error sum). -/
def mainShim {V ε : Type} (agnt : Option (AgntPkg V ε)) :
    List Effect × Except (ShimError ε) Unit :=
  match agnt with
  | none => ([Effect.stderrWrite printedNotice], Except.error ShimError.importError)
  | some pkg =>
      ([Effect.stderrWrite printedNotice, Effect.resolveAgnt, Effect.callAgntMain],
       pkg.mainResult.mapError ShimError.upstream)

/-- Top-level execution of the module file with a given `__name__`: the
module body runs (as in `importShim`), and the trailing
`if __name__ == "__main__": main()` guard (source lines 96 to 97) then
invokes `mainShim` exactly when the module runs as a script. -/
def executeModule {V ε : Type} (name : String) (agnt : Option (AgntPkg V ε)) :
    List Effect × Except (ShimError ε) Unit :=
  match agnt with
  | none => ((importShim agnt).1, Except.error ShimError.importError)
  | some _ =>
      if name = "__main__" then
        ((importShim agnt).1 ++ (mainShim agnt).1, (mainShim agnt).2)
      else
        ((importShim agnt).1, Except.ok ())

/-- Actions of a CPython warnings filter, as documented for the `warnings`
module. -/
inductive FilterAction where
  | ignore
  | always
  | once
  | module
  | default
  | error
  deriving DecidableEq

/-- Modelled from the documented semantics of the CPython `warnings`
machinery, which is outside this repository (the source only calls
`warnings.warn(message, DeprecationWarning, stacklevel=2)`): when the
filter matching the warning has action `error`, `warnings.warn` raises
the warning as an exception; when it has action `ignore`, the warning is
discarded; otherwise the call emits the warning and returns normally. -/
def warningsWarn (fa : FilterAction) (category message : String) :
    Except (String × String) (List Effect) :=
  match fa with
  | FilterAction.error => Except.error (category, message)
  | FilterAction.ignore => Except.ok []
  | _ => Except.ok [Effect.warn category message]

/-- `strContains s sub` holds when `sub` occurs in `s` as a literal
substring. -/
def strContains (s sub : String) : Prop := ∃ a b, s = a ++ (sub ++ b)

theorem strContains_appL {s sub : String} (x : String) (h : strContains s sub) :
    strContains (x ++ s) sub := by
  obtain ⟨a, b, hab⟩ := h
  exact ⟨x ++ a, b, by rw [hab, String.append_assoc]⟩

theorem strContains_appR {s sub : String} (y : String) (h : strContains s sub) :
    strContains (s ++ y) sub := by
  obtain ⟨a, b, hab⟩ := h
  refine ⟨a, b ++ y, ?_⟩
  rw [hab, String.append_assoc, String.append_assoc]

theorem strContains_pyRepeat {s sub : String} (n : Nat) (h : strContains s sub) :
    strContains (pyRepeat s (n + 1)) sub :=
  strContains_appR (pyRepeat s n) h

theorem wb_uninstall : strContains warningBody "pip uninstall devtool-mcp" :=
  strContains_appR "See: https://standardbeagle.github.io/agnt/\n"
    (strContains_appR "Then update your MCP configuration to use \x27agnt\x27 command.\n"
      (strContains_appR "\n"
        (strContains_appR "    pip install agnt\n"
          (strContains_appL
            ("\n" ++ "\n" ++ "This package will continue to work but will not receive updates.\n" ++
             "Please migrate to the new package:\n" ++ "\n")
            (⟨"    ", "\n", rfl⟩ :
              strContains "    pip uninstall devtool-mcp\n" "pip uninstall devtool-mcp")))))

theorem wb_install : strContains warningBody "pip install agnt" :=
  strContains_appR "See: https://standardbeagle.github.io/agnt/\n"
    (strContains_appR "Then update your MCP configuration to use \x27agnt\x27 command.\n"
      (strContains_appR "\n"
        (strContains_appL
          ("\n" ++ "\n" ++ "This package will continue to work but will not receive updates.\n" ++
           "Please migrate to the new package:\n" ++ "\n" ++
           "    pip uninstall devtool-mcp\n")
          (⟨"    ", "\n", rfl⟩ :
            strContains "    pip install agnt\n" "pip install agnt"))))

theorem wb_agnt : strContains warningBody "agnt" :=
  strContains_appR "See: https://standardbeagle.github.io/agnt/\n"
    (strContains_appR "Then update your MCP configuration to use \x27agnt\x27 command.\n"
      (strContains_appR "\n"
        (strContains_appL
          ("\n" ++ "\n" ++ "This package will continue to work but will not receive updates.\n" ++
           "Please migrate to the new package:\n" ++ "\n" ++
           "    pip uninstall devtool-mcp\n")
          (⟨"    pip install ", "\n", rfl⟩ :
            strContains "    pip install agnt\n" "agnt"))))

theorem nb_uninstall : strContains noticeBody "pip uninstall devtool-mcp" :=
  strContains_appR "="
    (strContains_appR "See: https://standardbeagle.github.io/agnt/\n"
      (strContains_appR "\n"
        (strContains_appR "    agnt run ...   (for PTY wrapper)\n"
          (strContains_appR "    agnt serve     (for MCP server)\n"
            (strContains_appR "Then use \x27agnt\x27 command instead:\n"
              (strContains_appR "\n"
                (strContains_appR "    pip install agnt\n"
                  (strContains_appL
                    ("\n" ++ "\n" ++ "This command will continue to work but will not receive updates.\n" ++
                     "Please migrate to the new package:\n" ++ "\n")
                    (⟨"    ", "\n", rfl⟩ :
                      strContains "    pip uninstall devtool-mcp\n" "pip uninstall devtool-mcp")))))))))

theorem nb_install : strContains noticeBody "pip install agnt" :=
  strContains_appR "="
    (strContains_appR "See: https://standardbeagle.github.io/agnt/\n"
      (strContains_appR "\n"
        (strContains_appR "    agnt run ...   (for PTY wrapper)\n"
          (strContains_appR "    agnt serve     (for MCP server)\n"
            (strContains_appR "Then use \x27agnt\x27 command instead:\n"
              (strContains_appR "\n"
                (strContains_appL
                  ("\n" ++ "\n" ++ "This command will continue to work but will not receive updates.\n" ++
                   "Please migrate to the new package:\n" ++ "\n" ++
                   "    pip uninstall devtool-mcp\n")
                  (⟨"    ", "\n", rfl⟩ :
                    strContains "    pip install agnt\n" "pip install agnt"))))))))

theorem nb_agnt : strContains noticeBody "agnt" :=
  strContains_appR "="
    (strContains_appR "See: https://standardbeagle.github.io/agnt/\n"
      (strContains_appR "\n"
        (strContains_appR "    agnt run ...   (for PTY wrapper)\n"
          (strContains_appR "    agnt serve     (for MCP server)\n"
            (strContains_appR "Then use \x27agnt\x27 command instead:\n"
              (strContains_appR "\n"
                (strContains_appL
                  ("\n" ++ "\n" ++ "This command will continue to work but will not receive updates.\n" ++
                   "Please migrate to the new package:\n" ++ "\n" ++
                   "    pip uninstall devtool-mcp\n")
                  (⟨"    pip install ", "\n", rfl⟩ :
                    strContains "    pip install agnt\n" "agnt"))))))))

theorem warningMessage_contains {sub : String} (h : strContains warningBody sub) :
    strContains warningMessage sub :=
  strContains_appL (pyRepeat bannerGroup 60 ++ pyRepeat warningHeader 60) h

theorem printedNotice_contains {sub : String} (h : strContains noticeBody sub) :
    strContains printedNotice sub :=
  strContains_appR "\n"
    (strContains_appR "\n"
      (strContains_appL (pyRepeat bannerGroup 60 ++ pyRepeat noticeHeader 60)
        (strContains_pyRepeat 59 h)))

theorem printedNotice_multiline : strContains printedNotice "\n" :=
  ⟨noticeText, "", rfl⟩

/-- C1: With the successor package available, `main` writes the notice, then
calls the successor entry point with no arguments (`callAgntMain`), and its
outcome is exactly the outcome of that call: it returns normally iff
`agnt.main` does, and it raises exactly the exception `agnt.main` raises,
unchanged. -/
theorem main_delegates {V ε : Type} (pkg : AgntPkg V ε) :
    (mainShim (some pkg)).1 =
      [Effect.stderrWrite printedNotice, Effect.resolveAgnt, Effect.callAgntMain] ∧
    (mainShim (some pkg)).2 = Except.mapError ShimError.upstream pkg.mainResult ∧
    ((mainShim (some pkg)).2 = Except.ok () ↔ pkg.mainResult = Except.ok ()) ∧
    (∀ e : ε, (mainShim (some pkg)).2 = Except.error (ShimError.upstream e) ↔
      pkg.mainResult = Except.error e) := by
  obtain ⟨v, g, r, mr⟩ := pkg
  cases mr with
  | ok u =>
      cases u
      exact ⟨rfl, rfl, by simp [mainShim, Except.mapError],
        fun e => by simp [mainShim, Except.mapError]⟩
  | error e0 =>
      exact ⟨rfl, rfl, by simp [mainShim, Except.mapError],
        fun e => by simp [mainShim, Except.mapError]⟩

/-- C2 counterexample: invoking `main` with the successor package absent does
raise the import error, but it is not free of other side effects: the very
same invocation performs a stream write (the stderr notice) before the error
is raised, refuting the claim that nothing is written to any stream. -/
theorem main_absent_writes_stderr :
    (mainShim (V := Unit) (ε := Unit) none).1.countP Effect.isStreamWrite = 1 ∧
    (mainShim (V := Unit) (ε := Unit) none).2 = Except.error ShimError.importError :=
  ⟨rfl, rfl⟩

/-- C2 amended: invoking `main` with the successor package absent raises the
unresolved-dependency (import) error, and its only other side effect is the
stderr notice, which is written before the error is raised. -/
theorem main_absent_notice_then_error {V ε : Type} :
    mainShim (V := V) (ε := ε) none =
      ([Effect.stderrWrite printedNotice], Except.error ShimError.importError) :=
  rfl

/-- C3: every execution of the module body emits exactly one warning, of the
deprecation category, and it is the first effect of the import, before the
resolution of the successor package (and before the import error when the
successor is absent). -/
theorem import_warns_first {V ε : Type} (agnt : Option (AgntPkg V ε)) :
    (mainShim agnt).1.countP Effect.isWarn = 0 ∧
    (importShim agnt).1.countP Effect.isWarn = 1 ∧
    (importShim agnt).1.head? = some warnEffect := by
  cases agnt <;> exact ⟨rfl, rfl, rfl⟩

/-- C4 counterexample: the module-load warning emission is not raise-free
under every warning configuration: under a filter whose action is `error`,
the `warnings.warn` call raises the deprecation warning as an exception. -/
theorem warn_error_filter_raises :
    warningsWarn FilterAction.error deprecationCategory warningMessage =
      Except.error (deprecationCategory, warningMessage) :=
  rfl

/-- C4 amended: under every warning configuration whose filter action for the
deprecation category is not `error`, the emission at module load returns
normally and has no effect beyond (at most) the single warning itself; under
an `error` filter the call raises the warning as an exception. -/
theorem warn_no_raise_unless_error (fa : FilterAction) (h : fa ≠ FilterAction.error) :
    ∃ effs, warningsWarn fa deprecationCategory warningMessage = Except.ok effs ∧
      ∀ e ∈ effs, e = warnEffect := by
  cases fa
  case error => exact absurd rfl h
  case ignore => exact ⟨[], rfl, fun e he => absurd he (List.not_mem_nil e)⟩
  all_goals exact ⟨[warnEffect], rfl, fun e he => List.mem_singleton.mp he⟩

/-- C4 witness: the amended statement at the concrete filter action
`always`. -/
theorem warn_no_raise_witness :
    ∃ effs, warningsWarn FilterAction.always deprecationCategory warningMessage =
      Except.ok effs ∧ ∀ e ∈ effs, e = warnEffect :=
  warn_no_raise_unless_error FilterAction.always (by decide)

/-- C5: a successful import binds the three re-exported names to exactly the
successor package values, unchanged. -/
theorem reexports_identity {V ε : Type} (pkg : AgntPkg V ε) :
    ∃ m : ShimModule V, (importShim (some pkg)).2 = Except.ok m ∧
      m.version = pkg.version ∧ m.get_binary_path = pkg.get_binary_path ∧
      m.run = pkg.run :=
  ⟨⟨pkg.version, pkg.get_binary_path, pkg.run, shimAll⟩, rfl, rfl, rfl, rfl⟩

/-- C6: every invocation of `main` writes the fixed notice to stderr as its
first effect — in particular before the successor entry point is called when
the successor is available — and the notice is multi-line. -/
theorem main_notice_then_delegate {V ε : Type} (pkg : AgntPkg V ε) :
    (mainShim (some pkg)).1 =
      [Effect.stderrWrite printedNotice, Effect.resolveAgnt, Effect.callAgntMain] ∧
    (mainShim (V := V) (ε := ε) none).1.head? =
      some (Effect.stderrWrite printedNotice) ∧
    strContains printedNotice "\n" :=
  ⟨rfl, rfl, printedNotice_multiline⟩

/-- C7: the stderr notice text of `main` and the import-time deprecation
warning text each contain, as literal substrings, the uninstall command, the
install command, and the new command name. -/
theorem texts_contain_migration :
    strContains warningMessage "pip uninstall devtool-mcp" ∧
    strContains warningMessage "pip install agnt" ∧
    strContains warningMessage "agnt" ∧
    strContains printedNotice "pip uninstall devtool-mcp" ∧
    strContains printedNotice "pip install agnt" ∧
    strContains printedNotice "agnt" :=
  ⟨warningMessage_contains wb_uninstall, warningMessage_contains wb_install,
   warningMessage_contains wb_agnt, printedNotice_contains nb_uninstall,
   printedNotice_contains nb_install, printedNotice_contains nb_agnt⟩

/-- C8: when the successor package is absent at module load, initialization
fails with exactly the single unresolved-dependency error (after the warning
effect), and when the successor is present initialization succeeds — the
shim introduces no error of its own. -/
theorem import_absent_single_error {V ε : Type} (pkg : AgntPkg V ε) :
    importShim (V := V) (ε := ε) none =
      ([warnEffect], Except.error ShimError.importError) ∧
    (importShim (some pkg)).2.isOk = true :=
  ⟨rfl, rfl⟩

/-- C9: `__all__` is exactly `["main", "get_binary_path", "run"]`: it
excludes the re-exported `__version__` and includes the shim-defined
`main`. -/
theorem all_names_exact :
    shimAll = ["main", "get_binary_path", "run"] ∧
    ¬ ("__version__" ∈ shimAll) ∧ "main" ∈ shimAll ∧
    "get_binary_path" ∈ shimAll ∧ "run" ∈ shimAll := by
  decide

/-- C10: executing the module as a script (with `__name__ = "__main__"` and
the successor available) runs `main` exactly once: the trace is the module
body effects followed by exactly one stderr notice and one delegation call,
and the outcome is that of the successor entry point; a plain import (any
other `__name__`) performs no stream write and no delegation call. -/
theorem script_runs_main {V ε : Type} (pkg : AgntPkg V ε) (name : String)
    (h : name ≠ "__main__") :
    (executeModule "__main__" (some pkg)).1 =
      [warnEffect, Effect.resolveAgnt, Effect.stderrWrite printedNotice,
       Effect.resolveAgnt, Effect.callAgntMain] ∧
    (executeModule "__main__" (some pkg)).1.countP Effect.isStreamWrite = 1 ∧
    (executeModule "__main__" (some pkg)).2 =
      Except.mapError ShimError.upstream pkg.mainResult ∧
    (executeModule name (some pkg)).1 = [warnEffect, Effect.resolveAgnt] ∧
    (executeModule name (some pkg)).1.countP Effect.isStreamWrite = 0 := by
  have hm : executeModule name (some pkg) = ((importShim (some pkg)).1, Except.ok ()) := by
    simp only [executeModule, if_neg h]
  exact ⟨rfl, rfl, rfl, by rw [hm]; rfl, by rw [hm]; rfl⟩

/-- C10 witness: the statement at the concrete module name `"x"` and a
concrete successor package. -/
theorem script_runs_main_witness :
    (executeModule "x" (some (⟨(), (), (), Except.ok ()⟩ : AgntPkg Unit Unit))).1 =
      [warnEffect, Effect.resolveAgnt] :=
  (script_runs_main (⟨(), (), (), Except.ok ()⟩ : AgntPkg Unit Unit) "x"
    (by decide)).2.2.2.1

end DevtoolMcp
